import Mathlib

/-!
Verification of the query/cache engine in `src/state/query/lib.ts`.

A shallow embedding of the Query state machine: the per-key state record
(`QueryMapItem` fields `current`, `stale`, `cache` plus the `Query` class
fields `isFetching` and `stoppedBy`), its primitive operations
(`markStale`, `clearCache`, `setData`, `resetStaleTimer`), the derived
exposed result (`currentWithCaching_`), the fetch loop (`Query.fetcher`),
option merging in the `Query` constructor, dependency `onChange` dispatch,
and the hierarchical query registry (`getQuery` and the key-addressed
public operations).

Conventions of the embedding:
- JavaScript timestamps (`Date.now()` values) and timer durations are `Nat`
  milliseconds.
- A field of type `number | false` becomes `Option Nat` (`false ↦ none`).
- A `NodeJS.Timeout | undefined` handle becomes `Option Nat`: `none` means
  no timer is scheduled, `some t` is a live timer due to fire at time `t`.
- `cache.data : ['none'] | ['some', T]` becomes `Option α`.
- The successive return values of the caller-supplied async `fetchFn` are
  modelled as a list of `FetchResult` consumed one per attempt; awaiting is
  collapsed (single-threaded scheduling, no interleaving within one loop).
-/

namespace QueryLib

/-- `QueryResult` from the source: the exposed query states
`idle | loading | err{isRefetching, err} | ok{data}`. -/
inductive QueryResult (α ε : Type) where
  | idle
  | loading
  | err (isRefetching : Bool) (e : ε)
  | ok (d : α)
deriving DecidableEq, Repr

/-- `FetchResult` from the source: the tagged outcome of one `fetchFn` call,
`['ok', v] | ['err', e] | ['retry', {err, returnError}]`. -/
inductive FetchResult (α ε : Type) where
  | ok (d : α)
  | err (e : ε)
  | retry (e : ε) (returnError : Bool)
deriving DecidableEq, Repr

/-- The `stale` field of `QueryMapItem`. -/
structure StaleState where
  turnsStaleAt : Option Nat
  duration : Option Nat
  isStale : Bool
  timeout : Option Nat
deriving DecidableEq, Repr

/-- The `cache` field of `QueryMapItem`. `data` keeps the last successful
value even after the cache is "cleared" (`hasCached := false`). -/
structure CacheState (α : Type) where
  expiresAt : Option Nat
  duration : Option Nat
  timeout : Option Nat
  hasCached : Bool
  data : Option α
deriving DecidableEq, Repr

/-- One Query's full mutable state: the `QueryMapItem` fields together with
the `Query` class fields `isFetching` (re-entrancy guard), `current` (latest
raw fetch outcome) and `stoppedBy` (indices of dependencies forbidding
fetches; the source uses a `Set<number>`, modelled as a duplicate-free
insertion-ordered list). -/
structure QueryState (α ε : Type) where
  isFetching : Bool
  current : QueryResult α ε
  stale : StaleState
  cache : CacheState α
  stoppedBy : List Nat
deriving DecidableEq, Repr

/-- The behavioural part of `UseQueryOptions` consumed by the state machine
(dependencies are wired separately). `onRetry count err` returns `some ms`
to wait or `none` for `false` (give up). -/
structure QueryOptions (α ε : Type) where
  onRetry : Nat → ε → Option Nat
  staleOnSubscribeIfUnused : Bool
  staleDuration : QueryResult α ε → Option Nat
  staleRefetchIfUnused : Bool
  cacheDuration : α → Option Nat

variable {α ε : Type}

/-- The default `onRetry` from the `Query` class field initialiser:
`count > 3 ? false : 0`. -/
def defaultOnRetry (count : Nat) (_e : ε) : Option Nat :=
  if count > 3 then none else some 0

/-- The default stale duration from the source: `() => false`
(queries never go stale by timer). -/
def defaultStaleDuration : QueryResult α ε → Option Nat := fun _ => none

/-- The default cache duration from the source: `() => false`
(query caches never expire). -/
def defaultCacheDuration : α → Option Nat := fun _ => none

/-- The default `UseQueryOptions` object initialising `Query.options`. -/
def defaultQueryOptions : QueryOptions α ε :=
  { onRetry := defaultOnRetry
    staleOnSubscribeIfUnused := false
    staleDuration := defaultStaleDuration
    staleRefetchIfUnused := false
    cacheDuration := defaultCacheDuration }

/-- The state installed by the `Query` constructor: `current` starts as
`{status:'idle'}`, `stale` starts `isStale: true` with no timer, the cache
starts empty, nothing is fetching and no dependency has stopped the query. -/
def initQueryState : QueryState α ε :=
  { isFetching := false
    current := .idle
    stale := { turnsStaleAt := none, duration := none, isStale := true, timeout := none }
    cache := { expiresAt := none, duration := none, timeout := none, hasCached := false,
               data := none }
    stoppedBy := [] }

/-- The `query.update` body of `Query.markStale`: cancel the stale timer and
set `isStale := true`, `duration := false`, `turnsStaleAt := false`.
(The subsequent conditional `fetcher()` trigger is modelled separately.) -/
def markStaleCore (s : QueryState α ε) : QueryState α ε :=
  { s with stale := { turnsStaleAt := none, duration := none, isStale := true, timeout := none } }

/-- `Query.clearCache`: cancel the cache timer, set `hasCached := false`,
`duration := false`, `expiresAt := false` (the `data` slot is retained),
then mark stale. -/
def clearCacheCore (s : QueryState α ε) : QueryState α ε :=
  markStaleCore
    { s with cache := { s.cache with
        timeout := none
        hasCached := false
        duration := none
        expiresAt := none } }

/-- `Query.resetStaleTimer`: cancel the pending stale timer, recompute the
duration from `options.stale.duration(current)`; on `false` clear
`turnsStaleAt` and the timer, otherwise schedule a timer at `now + duration`.
Note that the source never touches `stale.isStale` here. -/
def resetStaleTimerQ (opts : QueryOptions α ε) (now : Nat) (r : QueryResult α ε)
    (s : QueryState α ε) : QueryState α ε :=
  match opts.staleDuration r with
  | none => { s with stale := { s.stale with
      duration := none
      turnsStaleAt := none
      timeout := none } }
  | some d => { s with stale := { s.stale with
      duration := some d
      turnsStaleAt := some (now + d)
      timeout := some (now + d) } }

/-- `Query.setData`: set `current := ok{data}`, reset the stale timer with
the new `ok` result, store the data in the cache with `hasCached := true`,
cancel the old cache timer and schedule cache expiry via
`options.cache.duration(data)`. -/
def setDataQ (opts : QueryOptions α ε) (now : Nat) (d : α) (s : QueryState α ε) :
    QueryState α ε :=
  let s2 := resetStaleTimerQ opts now (.ok d) { s with current := .ok d }
  match opts.cacheDuration d with
  | none => { s2 with cache := { s2.cache with
      data := some d
      hasCached := true
      duration := none
      expiresAt := none
      timeout := none } }
  | some dur => { s2 with cache := { s2.cache with
      data := some d
      hasCached := true
      duration := some dur
      expiresAt := some (now + dur)
      timeout := some (now + dur) } }

/-- The derived store body `currentWithCaching_` from the `Query`
constructor: the pure function of `current` and the `stale`/`cache` fields
that computes the externally exposed result. Mirrors the source branch by
branch: `idle` passes through; when not stale, a `loading` with a non-empty
cached-data slot is served from the slot, anything else passes through; when
stale, `hasCached` plus a non-empty slot serves the slot, otherwise
`loading`. -/
def currentWithCaching (c : QueryResult α ε) (st : StaleState) (ca : CacheState α) :
    QueryResult α ε :=
  match c with
  | .idle => .idle
  | c' =>
    if !st.isStale then
      match c', ca.data with
      | .loading, some d => .ok d
      | _, _ => c'
    else
      match ca.hasCached, ca.data with
      | true, some d => .ok d
      | _, _ => .loading

/-- `true` iff the result is `loading`. -/
def QueryResult.isLoading : QueryResult α ε → Bool
  | .loading => true
  | _ => false

/-- "The cache has data" in the spec's sense: the value is flagged available
(`hasCached`) and the data slot is non-empty. -/
def cacheHasData (ca : CacheState α) : Bool :=
  ca.hasCached && ca.data.isSome

/-- "ok with the cached data" (with a fallback for an empty slot). -/
def cachedOr (ca : CacheState α) (dflt : QueryResult α ε) : QueryResult α ε :=
  match ca.data with
  | some d => .ok d
  | none => dflt

/-- The exposed-result derivation exactly as the spec sentence states it:
idle ↦ idle; not stale ∧ loading ∧ cache has data ↦ ok{cached};
not stale otherwise ↦ current; stale ∧ cache has data ↦ ok{cached};
stale ∧ no cache ↦ loading — reading "the cache has data" uniformly as
`hasCached` with a non-empty data slot. -/
def specDerivation (c : QueryResult α ε) (st : StaleState) (ca : CacheState α) :
    QueryResult α ε :=
  match c with
  | .idle => .idle
  | c' =>
    if st.isStale then
      if cacheHasData ca then cachedOr ca .loading else .loading
    else
      if c'.isLoading && cacheHasData ca then cachedOr ca c' else c'

/-- The derivation as the counterexample forces it to be amended: in the
not-stale `loading` branch the source consults only the cached-data slot
(`cache.data[0] === 'some'`), ignoring `hasCached`; the stale branch keeps
requiring `hasCached` as well. -/
def amendedDerivation (c : QueryResult α ε) (st : StaleState) (ca : CacheState α) :
    QueryResult α ε :=
  match c with
  | .idle => .idle
  | c' =>
    if st.isStale then
      if cacheHasData ca then cachedOr ca .loading else .loading
    else
      if c'.isLoading && ca.data.isSome then cachedOr ca c' else c'

/-- The result of one run of the `while (true)` loop inside `Query.fetcher`.
`stopped` is the `stoppedBy` early return, `settled` is a `break` with the
final `current`, and `stillFetching` means the supplied outcome list was
exhausted with the loop still going (in the source the loop would keep
awaiting `fetchFn`). `calls` counts `fetchFn` invocations and `waits` the
back-off delays awaited between retries. -/
inductive LoopOut (α ε : Type) where
  | stopped (s : QueryState α ε) (calls : Nat)
  | settled (s : QueryState α ε) (calls : Nat) (waits : List Nat)
  | stillFetching (s : QueryState α ε) (calls : Nat) (waits : List Nat)
deriving DecidableEq, Repr

/-- The `while (true)` loop of `Query.fetcher`, consuming one `FetchResult`
per `await this.fetch()`. Each iteration first checks `stoppedBy`; a `retry`
outcome increments `count`, consults `options.onRetry(count, err)`, and on a
wait either clears the cache and surfaces `err{isRefetching:true}`
(`returnError`) or surfaces `loading`, then awaits the delay; `err` and `ok`
outcomes set `current` and break. -/
def fetchLoop (opts : QueryOptions α ε) :
    List (FetchResult α ε) → Nat → Nat → List Nat → QueryState α ε → LoopOut α ε
  | [], _count, calls, waits, s =>
    if s.stoppedBy.isEmpty then .stillFetching s calls waits
    else .stopped { s with current := .idle, isFetching := false } calls
  | r :: rest, count, calls, waits, s =>
    if s.stoppedBy.isEmpty then
      match r with
      | .retry e returnError =>
        match opts.onRetry (count + 1) e with
        | none => .settled { s with current := .err false e } (calls + 1) waits
        | some w =>
          let s' := if returnError
            then { clearCacheCore s with current := .err true e }
            else { s with current := .loading }
          fetchLoop opts rest (count + 1) (calls + 1) (waits ++ [w]) s'
      | .err e => .settled { s with current := .err false e } (calls + 1) waits
      | .ok d => .settled { s with current := .ok d } (calls + 1) waits
    else .stopped { s with current := .idle, isFetching := false } calls

/-- The outcome of a whole `Query.fetcher` call. `skipped` covers the two
guard returns (not stale / already fetching); `panicked` is the
`throw new Error(...)` fired when the loop settles in an `idle`/`loading`
state. The `browser` guard is omitted: the model is client-side execution
where `browser` is true. -/
inductive FetchRun (α ε : Type) where
  | skipped (s : QueryState α ε)
  | stopped (s : QueryState α ε) (calls : Nat)
  | done (s : QueryState α ε) (calls : Nat) (waits : List Nat)
  | panicked (s : QueryState α ε) (calls : Nat) (waits : List Nat)
  | stillFetching (s : QueryState α ε) (calls : Nat) (waits : List Nat)
deriving DecidableEq, Repr

/-- `Query.fetcher`: return early unless stale and not already fetching; set
`isFetching := true` and `current := loading`; run the loop; after a `break`
the source throws if `current` is `idle`/`loading`, commits via `setData` on
`ok`, clears the cache on `err`, and finally clears `isFetching`. -/
def fetcher (opts : QueryOptions α ε) (now : Nat) (outs : List (FetchResult α ε))
    (s : QueryState α ε) : FetchRun α ε :=
  if s.stale.isStale = false then .skipped s
  else if s.isFetching then .skipped s
  else
    match fetchLoop opts outs 0 0 [] { s with isFetching := true, current := .loading } with
    | .stopped s' calls => .stopped s' calls
    | .stillFetching s' calls waits => .stillFetching s' calls waits
    | .settled s' calls waits =>
      match s'.current with
      | .ok d => .done { setDataQ opts now d s' with isFetching := false } calls waits
      | .err _ _ => .done { clearCacheCore s' with isFetching := false } calls waits
      | _ => .panicked s' calls waits

/-- The state carried by a `FetchRun`. -/
def FetchRun.stateOf : FetchRun α ε → QueryState α ε
  | .skipped s => s
  | .stopped s _ => s
  | .done s _ _ => s
  | .panicked s _ _ => s
  | .stillFetching s _ _ => s

/-- How many times `fetchFn` was invoked during the run. -/
def FetchRun.callsOf : FetchRun α ε → Nat
  | .skipped _ => 0
  | .stopped _ c => c
  | .done _ c _ => c
  | .panicked _ c _ => c
  | .stillFetching _ c _ => c

/-- The retry back-off delays awaited during the run. -/
def FetchRun.waitsOf : FetchRun α ε → List Nat
  | .skipped _ => []
  | .stopped _ _ => []
  | .done _ _ w => w
  | .panicked _ _ w => w
  | .stillFetching _ _ w => w

/-- `true` iff the run completed the post-loop commit normally. -/
def FetchRun.isDone : FetchRun α ε → Bool
  | .done _ _ _ => true
  | _ => false

/-- `true` iff the run hit the internal-consistency `throw`. -/
def FetchRun.isPanic : FetchRun α ε → Bool
  | .panicked _ _ _ => true
  | _ => false

/-- `true` iff the run took the `stoppedBy` early return. -/
def FetchRun.isStopped : FetchRun α ε → Bool
  | .stopped _ _ => true
  | _ => false

/-- `true` iff the result is a terminal `ok` or `err`. -/
def QueryResult.isOkOrErr : QueryResult α ε → Bool
  | .ok _ => true
  | .err _ _ => true
  | _ => false

/-- `true` unless the loop settled in a state other than `ok`/`err`. -/
def LoopOut.settledOkOrErr : LoopOut α ε → Bool
  | .settled s _ _ => s.current.isOkOrErr
  | _ => true

/-- The four-way return contract of a dependency's `onChange` callback. -/
inductive OnChangeResult where
  | nothing
  | refetch
  | clearCacheAndRefetch
  | stop
deriving DecidableEq, Repr

/-- Which `Query` method the dependency handler invokes after adjusting
`stoppedBy` (`invalidateAndRefetch() = clearCache(true)`,
`refetch() = markStale(true)`). -/
inductive DepAction where
  | noAction
  | refetch
  | invalidateAndRefetch
deriving DecidableEq, Repr

/-- `Set.add` on the `stoppedBy` model: insert if absent. -/
def stopAdd (l : List Nat) (i : Nat) : List Nat :=
  if i ∈ l then l else l ++ [i]

/-- `Set.delete` on the `stoppedBy` model. -/
def stopDel (l : List Nat) (i : Nat) : List Nat :=
  l.erase i

/-- The dependency `onChange` dispatch shared by
`Query.addDependencySubscription` and `Query.addDependencyQuery`:
`nothing` removes the index from `stoppedBy`; `refetch` removes it and calls
`refetch()`; `clearCacheAndRefetch` removes it and calls
`invalidateAndRefetch()`; `stop` adds it and calls `invalidateAndRefetch()`. -/
def applyOnChange (r : OnChangeResult) (i : Nat) (stoppedBy : List Nat) :
    List Nat × DepAction :=
  match r with
  | .nothing => (stopDel stoppedBy i, .noAction)
  | .refetch => (stopDel stoppedBy i, .refetch)
  | .clearCacheAndRefetch => (stopDel stoppedBy i, .invalidateAndRefetch)
  | .stop => (stopAdd stoppedBy i, .invalidateAndRefetch)

/-- The synchronous state effect of the invoked method (the `fetcher()` call
that `markStale` may fire is asynchronous and modelled separately). -/
def performDepAction (s : QueryState α ε) : DepAction → QueryState α ε
  | .noAction => s
  | .refetch => markStaleCore s
  | .invalidateAndRefetch => clearCacheCore s

/-- One dependency `onChange` notification applied to a query state. -/
def applyDepChange (r : OnChangeResult) (i : Nat) (s : QueryState α ε) : QueryState α ε :=
  let (sb, a) := applyOnChange r i s.stoppedBy
  performDepAction { s with stoppedBy := sb } a

/-- The caller-supplied `RecursivePartial<UseQueryOptions>` nested group for
`stale`: every field optional (`none` models an absent / `undefined` key,
which `recursiveRemoveUndefined` deletes before the merge). -/
structure StaleOptionsIn (α ε : Type) where
  onSubscribeIfUnused : Option Bool := none
  duration : Option (QueryResult α ε → Option Nat) := none
  refetchIfUnused : Option Bool := none

/-- The caller-supplied nested group for `cache`. -/
structure CacheOptionsIn (α : Type) where
  duration : Option (α → Option Nat) := none

/-- The caller-supplied `RecursivePartial<UseQueryOptions>` object. `δ` is
the type of dependency descriptors. -/
structure UseQueryOptionsIn (α ε δ : Type) where
  dependencies : Option (List δ) := none
  onRetry : Option (Nat → ε → Option Nat) := none
  stale : Option (StaleOptionsIn α ε) := none
  cache : Option (CacheOptionsIn α) := none

/-- The shape of `this.options` after the constructor's merge. Because the
spread `{...defaults, ...options}` is shallow, a nested group supplied by
the caller replaces the default group wholesale, so nested fields can end up
absent (`undefined`): they stay `Option`-valued here. -/
structure MergedStaleOptions (α ε : Type) where
  onSubscribeIfUnused : Option Bool
  duration : Option (QueryResult α ε → Option Nat)
  refetchIfUnused : Option Bool

/-- The merged `cache` group. -/
structure MergedCacheOptions (α : Type) where
  duration : Option (α → Option Nat)

/-- The merged `UseQueryOptions`. Top-level fields supplied by the caller
are complete values, so they are total here. -/
structure MergedUseQueryOptions (α ε δ : Type) where
  dependencies : List δ
  onRetry : Nat → ε → Option Nat
  stale : MergedStaleOptions α ε
  cache : MergedCacheOptions α

/-- The `Query` constructor's
`this.options = { ...this.options, ...recursiveRemoveUndefined(options) }`:
a shallow spread of the cleaned caller object over the defaults. A top-level
key present in the caller's object wins wholesale; in particular a supplied
`stale`/`cache` group carries over exactly its own present fields, dropping
the default values of its absent siblings. -/
def mergeUseQueryOptions {δ : Type} (p : UseQueryOptionsIn α ε δ) :
    MergedUseQueryOptions α ε δ :=
  { dependencies := p.dependencies.getD []
    onRetry := p.onRetry.getD defaultOnRetry
    stale :=
      match p.stale with
      | none =>
        { onSubscribeIfUnused := some false
          duration := some defaultStaleDuration
          refetchIfUnused := some false }
      | some ps =>
        { onSubscribeIfUnused := ps.onSubscribeIfUnused
          duration := ps.duration
          refetchIfUnused := ps.refetchIfUnused }
    cache :=
      match p.cache with
      | none => { duration := some defaultCacheDuration }
      | some pc => { duration := pc.duration } }

/-- The primitive operations that mutate a Query's state after creation:
the public methods, timer firings (a stale timer fires `markStale()`, a
cache timer fires `clearCache()`), dependency notifications and whole
fetcher runs. -/
inductive QOp (α ε : Type) where
  | markStale
  | clearCache
  | setData (d : α) (now : Nat)
  | resetStaleTimer (r : QueryResult α ε) (now : Nat)
  | staleTimerFire
  | cacheTimerFire
  | depChange (r : OnChangeResult) (i : Nat)
  | runFetcher (outs : List (FetchResult α ε)) (now : Nat)

/-- Apply one operation to the state. -/
def applyQOp (opts : QueryOptions α ε) (s : QueryState α ε) : QOp α ε → QueryState α ε
  | .markStale => markStaleCore s
  | .clearCache => clearCacheCore s
  | .setData d now => setDataQ opts now d s
  | .resetStaleTimer r now => resetStaleTimerQ opts now r s
  | .staleTimerFire => markStaleCore s
  | .cacheTimerFire => clearCacheCore s
  | .depChange r i => applyDepChange r i s
  | .runFetcher outs now => (fetcher opts now outs s).stateOf

/-- The state reached from creation by a sequence of operations. -/
def runQOps (opts : QueryOptions α ε) (ops : List (QOp α ε)) : QueryState α ε :=
  ops.foldl (applyQOp opts) initQueryState

/-- The exposed-result derivation restricted to its stale-side branches
(everything after `if (!query.stale.isStale) { ... }` in the source,
plus the `idle` pass-through). -/
def currentWithCachingStale (c : QueryResult α ε) (ca : CacheState α) : QueryResult α ε :=
  match c with
  | .idle => .idle
  | _ =>
    match ca.hasCached, ca.data with
    | true, some d => .ok d
    | _, _ => .loading

/-- A node of the registry tree (`QueryMap`): a plain nested mapping, or a
constructed Query (a `Writable<QueryMapItem>`, recognised in the source by
its `subscribe` capability and `current` field). JavaScript objects accept
new properties even on a store object, so an `item` node also carries the
extra entries that `getQuery`'s auto-vivification may hang off it. -/
inductive QMNode (α ε : Type) where
  | mapping (entries : List (String × QMNode α ε))
  | item (q : QueryState α ε) (extra : List (String × QMNode α ε))

/-- Property lookup `obj[k]` on a node's entries. -/
def childOf : List (String × QMNode α ε) → String → Option (QMNode α ε)
  | [], _ => none
  | (k', n) :: rest, k => if k' = k then some n else childOf rest k

/-- Property write `obj[k] = n`: replace in place, or append a new key. -/
def setChildEntries : List (String × QMNode α ε) → String → QMNode α ε →
    List (String × QMNode α ε)
  | [], k, n => [(k, n)]
  | (k', n') :: rest, k, n =>
    if k' = k then (k, n) :: rest else (k', n') :: setChildEntries rest k n

/-- The entries (own properties holding child nodes) of a node. -/
def entriesOf : QMNode α ε → List (String × QMNode α ε)
  | .mapping es => es
  | .item _ es => es

/-- Replace a node's entries, keeping its Query payload if any. -/
def withEntries : QMNode α ε → List (String × QMNode α ε) → QMNode α ε
  | .mapping _, es => .mapping es
  | .item q _, es => .item q es

/-- The traversal of `getQuery` followed by the delegated `Query` method:
walk the key, and for every missing segment insert an empty mapping
(`qmItem[subKey] = {}`), mutating the tree in place; if the final node is a
constructed Query, apply `f` to it (the key-addressed operations each pass
their method; `getQuery` itself passes the identity) and report it, else
report "not found". -/
def getUpd (f : QueryState α ε → QueryState α ε) :
    QMNode α ε → List String → QMNode α ε × Option (QueryState α ε)
  | node, [] =>
    match node with
    | .item q es => (.item (f q) es, some q)
    | .mapping es => (.mapping es, none)
  | node, k :: ks =>
    let child := (childOf (entriesOf node) k).getD (.mapping [])
    let (child', r) := getUpd f child ks
    (withEntries node (setChildEntries (entriesOf node) k child'), r)

/-- `getQuery`: the traversal alone, with no method applied on a hit. -/
def getQueryT (t : QMNode α ε) (key : List String) : QMNode α ε × Option (QueryState α ε) :=
  getUpd id t key

/-- The shared registry store: the tree value held by the Svelte `writable`,
plus a count of `set`/`update` notifications delivered to subscribers.
`getQuery` mutates the tree it obtained from `get(queryMap)` in place and
never calls `update`, so the key-addressed operations leave the count
unchanged; only `useQuery`'s registration of a new Query goes through
`queryMap.update`. -/
structure QueryStore (α ε : Type) where
  tree : QMNode α ε
  notifications : Nat

/-- Key-addressed `markStale(key)`: look up (vivifying), no-op if absent,
else delegate to `Query.markStale`. No store notification either way. -/
def markStaleStore (s : QueryStore α ε) (key : List String) : QueryStore α ε :=
  { tree := (getUpd markStaleCore s.tree key).1, notifications := s.notifications }

/-- Key-addressed `invalidate(key)` (delegates to `Query.clearCache`). -/
def invalidateStore (s : QueryStore α ε) (key : List String) : QueryStore α ε :=
  { tree := (getUpd clearCacheCore s.tree key).1, notifications := s.notifications }

/-- Key-addressed `refetch(key)` (delegates to `Query.refetch`, whose
synchronous effect is `markStale`). -/
def refetchStore (s : QueryStore α ε) (key : List String) : QueryStore α ε :=
  { tree := (getUpd markStaleCore s.tree key).1, notifications := s.notifications }

/-- Key-addressed `updateData(key, data)` (delegates to `Query.setData`). -/
def updateDataStore (opts : QueryOptions α ε) (now : Nat) (d : α) (s : QueryStore α ε)
    (key : List String) : QueryStore α ε :=
  { tree := (getUpd (setDataQ opts now d) s.tree key).1, notifications := s.notifications }

mutual

/-- All Query states stored in a tree, in entry order. -/
def itemsOf : QMNode α ε → List (QueryState α ε)
  | .mapping es => itemsOfList es
  | .item q es => q :: itemsOfList es

/-- All Query states stored under a list of entries. -/
def itemsOfList : List (String × QMNode α ε) → List (QueryState α ε)
  | [] => []
  | (_, n) :: rest => itemsOf n ++ itemsOfList rest

end

/-- A not-stale state with no timers (only `isStale` matters to the
derivation). -/
def notStaleState : StaleState :=
  { turnsStaleAt := none, duration := none, isStale := false, timeout := none }

/-- A cache whose data slot still holds `3` but which is flagged cleared
(`hasCached := false`) — exactly the shape `clearCache` leaves behind. -/
def clearedCacheWithSlot : CacheState Nat :=
  { expiresAt := none, duration := none, timeout := none, hasCached := false, data := some 3 }

/-- The state of a `LoopOut`. -/
def LoopOut.stateOf : LoopOut α ε → QueryState α ε
  | .stopped s _ => s
  | .settled s _ _ => s
  | .stillFetching s _ _ => s

/-- The Query state a node directly owns (empty for a plain mapping). -/
def headItems : QMNode α ε → List (QueryState α ε)
  | .mapping _ => []
  | .item q _ => [q]

/-- Options whose `stale.duration` returns 1000 ms, as produced by e.g.
`useQuery(key, fetchFn, { stale: { duration: () => 1000, ... }, ... })`. -/
def staleTimerOptions : QueryOptions Nat Nat :=
  { defaultQueryOptions with staleDuration := fun _ => some 1000 }

/-- An `onRetry` policy returning `0, 0, false` for counts `1, 2, 3`. -/
def retryBackoffOptions : QueryOptions Nat Nat :=
  { defaultQueryOptions with onRetry := fun count _ => if count < 3 then some 0 else none }

/-- A caller options object supplying only `stale.onSubscribeIfUnused`. -/
def staleOnlyOptionsIn : UseQueryOptionsIn Nat Nat Unit :=
  { stale := some { onSubscribeIfUnused := some true } }

/-- The state of a query that fetched `5` successfully at time 0 under the
default options: `current = ok{5}`, cache holds `5` with `hasCached`. -/
def cachedThenErrorState : QueryState Nat Nat :=
  setDataQ defaultQueryOptions 0 5 initQueryState

end QueryLib

namespace QueryLib

/-- Claim C1 (counterexample): the claimed derivation differs from the
source's `currentWithCaching_` at the concrete input `current = loading`,
`isStale = false`, `hasCached = false`, `data = some 3`: the source serves
`ok{3}` from the retained data slot while the claim's case analysis returns
`current` (i.e. `loading`) because the cache does not have data
(`hasCached` is false). -/
theorem claim_C1_counterexample :
    currentWithCaching (.loading : QueryResult Nat Nat) notStaleState clearedCacheWithSlot
      = .ok 3 ∧
    specDerivation (.loading : QueryResult Nat Nat) notStaleState clearedCacheWithSlot
      = .loading ∧
    currentWithCaching (.loading : QueryResult Nat Nat) notStaleState clearedCacheWithSlot
      ≠ specDerivation (.loading : QueryResult Nat Nat) notStaleState clearedCacheWithSlot := by
  refine ⟨rfl, rfl, ?_⟩
  decide

/-- Claim C1 (amended): the externally exposed result is the pure function
of `current` and the stale/cache fields computed as: idle ↦ idle; not stale,
`current = loading` and the cached-data slot non-empty (regardless of
`hasCached`) ↦ ok{cached}; not stale otherwise ↦ `current`; stale with
`hasCached` and a non-empty slot ↦ ok{cached}; stale otherwise ↦ loading.
This amended case analysis coincides with the source derivation on every
input. -/
theorem claim_C1 {α ε : Type} (c : QueryResult α ε) (st : StaleState) (ca : CacheState α) :
    amendedDerivation c st ca = currentWithCaching c st ca := by
  cases c <;> cases hst : st.isStale <;> cases hca : ca.hasCached <;>
    cases hd : ca.data <;>
      simp [amendedDerivation, currentWithCaching, cacheHasData, cachedOr,
        QueryResult.isLoading, hst, hca, hd]

/-- Claim C2: the claimed invariant — `stale.isStale` true implies
`turnsStaleAt = never` and no active staleness timer — matches the field
documentation in the source ("Set to `false` if `isStale` is `true`") but is
violated by the code: `resetStaleTimer` never clears `isStale`, so after a
`setData` whose `options.stale.duration` returns 1000 the state has
`isStale = true` together with a scheduled `turnsStaleAt` and a live timer. -/
theorem claim_C2_bug :
    (setDataQ staleTimerOptions 50 3 initQueryState).stale.isStale = true ∧
    (setDataQ staleTimerOptions 50 3 initQueryState).stale.turnsStaleAt = some 1050 ∧
    (setDataQ staleTimerOptions 50 3 initQueryState).stale.timeout = some 1050 :=
  ⟨rfl, rfl, rfl⟩

/-- Claim C3: with the default configuration (`defaultOnRetry`, i.e.
`count > 3 ? false : 0`), a fetch whose every attempt yields `retry` makes
four `fetchFn` invocations with three zero-millisecond waits before the
terminal `err` — not the three invocations / two retries the claim (and the
source's own comment "retry 2 more times immediately") state. -/
theorem claim_C3_bug (e : Nat) :
    (mergeUseQueryOptions ({} : UseQueryOptionsIn Nat Nat Unit)).onRetry = defaultOnRetry ∧
    (fetcher defaultQueryOptions 0 (List.replicate 4 (FetchResult.retry e false))
        (initQueryState : QueryState Nat Nat)).isDone = true ∧
    (fetcher defaultQueryOptions 0 (List.replicate 4 (FetchResult.retry e false))
        (initQueryState : QueryState Nat Nat)).callsOf = 4 ∧
    (fetcher defaultQueryOptions 0 (List.replicate 4 (FetchResult.retry e false))
        (initQueryState : QueryState Nat Nat)).waitsOf = [0, 0, 0] ∧
    (fetcher defaultQueryOptions 0 (List.replicate 4 (FetchResult.retry e false))
        (initQueryState : QueryState Nat Nat)).stateOf.current = QueryResult.err false e :=
  ⟨rfl, rfl, rfl, rfl, rfl⟩

/-- Claim C4: after a fetch loop terminating with a non-retry `err` outcome
the cache is indeed cleared (`hasCached` becomes false, first conjuncts),
but the error is not exposed to subscribers: because `stale.isStale` is
permanently true and the cache was just cleared, the derived exposed result
is `loading`, not `err{isRefetching:false, err}` — `current` holds the
error internally only. Evaluated at a query that had cached data `5` and
then fetched `['err', 7]`. -/
theorem claim_C4_bug :
    cachedThenErrorState.cache.hasCached = true ∧
    (fetcher defaultQueryOptions 10 [FetchResult.err 7] cachedThenErrorState).isDone = true ∧
    (fetcher defaultQueryOptions 10 [FetchResult.err 7]
        cachedThenErrorState).stateOf.cache.hasCached = false ∧
    (fetcher defaultQueryOptions 10 [FetchResult.err 7]
        cachedThenErrorState).stateOf.current = QueryResult.err false 7 ∧
    currentWithCaching
        (fetcher defaultQueryOptions 10 [FetchResult.err 7]
          cachedThenErrorState).stateOf.current
        (fetcher defaultQueryOptions 10 [FetchResult.err 7]
          cachedThenErrorState).stateOf.stale
        (fetcher defaultQueryOptions 10 [FetchResult.err 7]
          cachedThenErrorState).stateOf.cache = QueryResult.loading :=
  ⟨rfl, rfl, rfl, rfl, rfl⟩

/-- Claim C5: the constructor's merge is a shallow spread, so supplying only
`stale.onSubscribeIfUnused` does not keep `stale.duration` at its default:
the merged `stale` group has `duration` absent (`undefined`), while the
claimed deep merge would have kept the default never-stale function (as the
empty options object does). -/
theorem claim_C5_bug :
    (mergeUseQueryOptions staleOnlyOptionsIn).stale.onSubscribeIfUnused = some true ∧
    (mergeUseQueryOptions staleOnlyOptionsIn).stale.duration = none ∧
    (mergeUseQueryOptions staleOnlyOptionsIn).stale.refetchIfUnused = none ∧
    (mergeUseQueryOptions ({} : UseQueryOptionsIn Nat Nat Unit)).stale.duration
      = some defaultStaleDuration ∧
    (none : Option (QueryResult Nat Nat → Option Nat)) ≠ some defaultStaleDuration := by
  refine ⟨rfl, rfl, rfl, rfl, ?_⟩
  simp

/-- Claim C6: with `onRetry` returning `0, 0, false` for counts `1, 2, 3`,
a fetch whose every attempt returns `retry{err, returnError:false}` makes
exactly 3 `fetchFn` invocations with 2 zero-millisecond delayed retries and
terminates normally with `current = err{isRefetching:false, err}`, from any
state in which the fetch loop can be entered. -/
theorem claim_C6 (e : Nat) (s : QueryState Nat Nat)
    (hstop : s.stoppedBy = []) (hstale : s.stale.isStale = true)
    (hfetch : s.isFetching = false) :
    (fetcher retryBackoffOptions 0
        [FetchResult.retry e false, FetchResult.retry e false, FetchResult.retry e false]
        s).isDone = true ∧
    (fetcher retryBackoffOptions 0
        [FetchResult.retry e false, FetchResult.retry e false, FetchResult.retry e false]
        s).callsOf = 3 ∧
    (fetcher retryBackoffOptions 0
        [FetchResult.retry e false, FetchResult.retry e false, FetchResult.retry e false]
        s).waitsOf = [0, 0] ∧
    (fetcher retryBackoffOptions 0
        [FetchResult.retry e false, FetchResult.retry e false, FetchResult.retry e false]
        s).stateOf.current = QueryResult.err false e := by
  simp [fetcher, fetchLoop, retryBackoffOptions, defaultQueryOptions, hstale, hfetch, hstop,
    clearCacheCore, markStaleCore, FetchRun.isDone, FetchRun.callsOf, FetchRun.waitsOf,
    FetchRun.stateOf]

/-- Witness for claim C6 at the freshly constructed state and `err = 7`. -/
theorem claim_C6_witness :
    (fetcher retryBackoffOptions 0
        [FetchResult.retry 7 false, FetchResult.retry 7 false, FetchResult.retry 7 false]
        (initQueryState : QueryState Nat Nat)).isDone = true ∧
    (fetcher retryBackoffOptions 0
        [FetchResult.retry 7 false, FetchResult.retry 7 false, FetchResult.retry 7 false]
        (initQueryState : QueryState Nat Nat)).callsOf = 3 ∧
    (fetcher retryBackoffOptions 0
        [FetchResult.retry 7 false, FetchResult.retry 7 false, FetchResult.retry 7 false]
        (initQueryState : QueryState Nat Nat)).waitsOf = [0, 0] ∧
    (fetcher retryBackoffOptions 0
        [FetchResult.retry 7 false, FetchResult.retry 7 false, FetchResult.retry 7 false]
        (initQueryState : QueryState Nat Nat)).stateOf.current = QueryResult.err false 7 :=
  claim_C6 7 initQueryState rfl rfl rfl

/-- Claim C7: a dependency `onChange` returning `'stop'` adds the
dependency's index to `stoppedBy` and invokes `invalidateAndRefetch`; and
any fetch loop entered while `stoppedBy` is non-empty immediately sets the
result to `idle`, clears the in-flight flag, and exits with zero `fetchFn`
invocations. -/
theorem claim_C7 {α ε : Type} (i : Nat) (sb : List Nat) (opts : QueryOptions α ε)
    (now : Nat) (outs : List (FetchResult α ε)) (s : QueryState α ε)
    (hstop : s.stoppedBy ≠ []) (hstale : s.stale.isStale = true)
    (hfetch : s.isFetching = false) :
    (applyOnChange .stop i sb).1 = stopAdd sb i ∧
    i ∈ (applyOnChange .stop i sb).1 ∧
    (applyOnChange .stop i sb).2 = DepAction.invalidateAndRefetch ∧
    fetcher opts now outs s
      = .stopped { s with current := .idle, isFetching := false } 0 := by
  refine ⟨rfl, ?_, rfl, ?_⟩
  · by_cases h : i ∈ sb <;> simp [applyOnChange, stopAdd, h]
  · cases outs <;>
      simp [fetcher, fetchLoop, hstale, hfetch, List.isEmpty_iff, hstop]

/-- Witness for claim C7: index 0 stopping an empty `stoppedBy`, and a fetch
loop entered on a fresh state stopped by dependency 1. -/
theorem claim_C7_witness :
    (applyOnChange .stop 0 [] ).1 = stopAdd [] 0 ∧
    0 ∈ (applyOnChange .stop 0 []).1 ∧
    (applyOnChange .stop 0 []).2 = DepAction.invalidateAndRefetch ∧
    fetcher (defaultQueryOptions : QueryOptions Nat Nat) 0 []
        { initQueryState with stoppedBy := [1] }
      = .stopped { ({ initQueryState with stoppedBy := [1] } : QueryState Nat Nat) with
                   current := .idle, isFetching := false } 0 :=
  claim_C7 0 [] defaultQueryOptions 0 [] { initQueryState with stoppedBy := [1] }
    (by simp) rfl rfl

theorem fetchLoop_settled_ok_or_err {α ε : Type} (opts : QueryOptions α ε)
    (outs : List (FetchResult α ε)) :
    ∀ (count calls : Nat) (waits : List Nat) (s : QueryState α ε),
      (fetchLoop opts outs count calls waits s).settledOkOrErr = true := by
  induction outs with
  | nil =>
    intro count calls waits s
    by_cases h : s.stoppedBy.isEmpty <;> simp [fetchLoop, h, LoopOut.settledOkOrErr]
  | cons r rest ih =>
    intro count calls waits s
    by_cases h : s.stoppedBy.isEmpty
    · cases r with
      | retry e returnError =>
        cases hr : opts.onRetry (count + 1) e with
        | none =>
          simp [fetchLoop, h, hr, LoopOut.settledOkOrErr, QueryResult.isOkOrErr]
        | some w =>
          simp only [fetchLoop, h, hr, if_true]
          exact ih _ _ _ _
      | err e =>
        simp [fetchLoop, h, LoopOut.settledOkOrErr, QueryResult.isOkOrErr]
      | ok d =>
        simp [fetchLoop, h, LoopOut.settledOkOrErr, QueryResult.isOkOrErr]
    · simp [fetchLoop, h, LoopOut.settledOkOrErr]

/-- Claim C8: the fetch loop never settles (exits by `break`) in a state
other than `ok`/`err` — the `stoppedBy` early return is the sole `idle`
terminal — so the post-loop internal-consistency check that would throw on
an `idle`/`loading` state is unreachable: no `Query.fetcher` run panics. -/
theorem claim_C8 {α ε : Type} (opts : QueryOptions α ε) (outs : List (FetchResult α ε))
    (count calls : Nat) (waits : List Nat) (s : QueryState α ε) (now : Nat) :
    (fetchLoop opts outs count calls waits s).settledOkOrErr = true ∧
    (fetcher opts now outs s).isPanic = false := by
  refine ⟨fetchLoop_settled_ok_or_err opts outs count calls waits s, ?_⟩
  unfold fetcher
  by_cases h1 : s.stale.isStale = false
  · simp [h1, FetchRun.isPanic]
  · by_cases h2 : s.isFetching
    · simp [h1, h2, FetchRun.isPanic]
    · simp only [h1, h2, if_false, ite_false]
      have hset := fetchLoop_settled_ok_or_err opts outs 0 0 []
        { s with isFetching := true, current := .loading }
      cases hl : fetchLoop opts outs 0 0 [] { s with isFetching := true, current := .loading } with
      | stopped s' c => simp [FetchRun.isPanic]
      | stillFetching s' c w => simp [FetchRun.isPanic]
      | settled s' c w =>
        rw [hl] at hset
        simp only [LoopOut.settledOkOrErr] at hset
        cases hc : s'.current with
        | ok d => simp [hc, FetchRun.isPanic]
        | err b e => simp [hc, FetchRun.isPanic]
        | idle => rw [hc] at hset; simp [QueryResult.isOkOrErr] at hset
        | loading => rw [hc] at hset; simp [QueryResult.isOkOrErr] at hset

theorem resetStaleTimerQ_isStale {α ε : Type} (opts : QueryOptions α ε) (now : Nat)
    (r : QueryResult α ε) (s : QueryState α ε) :
    (resetStaleTimerQ opts now r s).stale.isStale = s.stale.isStale := by
  unfold resetStaleTimerQ
  cases opts.staleDuration r <;> rfl

theorem setDataQ_isStale {α ε : Type} (opts : QueryOptions α ε) (now : Nat) (d : α)
    (s : QueryState α ε) :
    (setDataQ opts now d s).stale.isStale = s.stale.isStale := by
  unfold setDataQ
  cases hc : opts.cacheDuration d <;>
    simp [hc, resetStaleTimerQ_isStale]

theorem fetchLoop_isStale {α ε : Type} (opts : QueryOptions α ε)
    (outs : List (FetchResult α ε)) :
    ∀ (count calls : Nat) (waits : List Nat) (s : QueryState α ε),
      s.stale.isStale = true →
      ((fetchLoop opts outs count calls waits s).stateOf).stale.isStale = true := by
  induction outs with
  | nil =>
    intro count calls waits s hs
    by_cases h : s.stoppedBy.isEmpty <;> simp [fetchLoop, h, LoopOut.stateOf, hs]
  | cons r rest ih =>
    intro count calls waits s hs
    by_cases h : s.stoppedBy.isEmpty
    · cases r with
      | retry e returnError =>
        cases hr : opts.onRetry (count + 1) e with
        | none => simp [fetchLoop, h, hr, LoopOut.stateOf, hs]
        | some w =>
          cases returnError
          · simp only [fetchLoop, h, hr, if_true, Bool.false_eq_true, ite_false]
            exact ih _ _ _ _ hs
          · simp only [fetchLoop, h, hr, if_true, ite_true]
            exact ih _ _ _ _ rfl
      | err e => simp [fetchLoop, h, LoopOut.stateOf, hs]
      | ok d => simp [fetchLoop, h, LoopOut.stateOf, hs]
    · simp [fetchLoop, h, LoopOut.stateOf, hs]

theorem fetcher_isStale {α ε : Type} (opts : QueryOptions α ε) (now : Nat)
    (outs : List (FetchResult α ε)) (s : QueryState α ε) (hs : s.stale.isStale = true) :
    ((fetcher opts now outs s).stateOf).stale.isStale = true := by
  unfold fetcher
  by_cases h1 : s.stale.isStale = false
  · rw [hs] at h1; exact absurd h1 (by simp)
  · by_cases h2 : s.isFetching
    · simp [h1, h2, FetchRun.stateOf, hs]
    · simp only [h1, h2, if_false, ite_false]
      have hloop := fetchLoop_isStale opts outs 0 0 []
        { s with isFetching := true, current := .loading } hs
      cases hl : fetchLoop opts outs 0 0 [] { s with isFetching := true, current := .loading } with
      | stopped s' c =>
        rw [hl] at hloop; simp [LoopOut.stateOf] at hloop
        simp [FetchRun.stateOf, hloop]
      | stillFetching s' c w =>
        rw [hl] at hloop; simp [LoopOut.stateOf] at hloop
        simp [FetchRun.stateOf, hloop]
      | settled s' c w =>
        rw [hl] at hloop; simp [LoopOut.stateOf] at hloop
        cases hc : s'.current with
        | ok d => simp [hc, FetchRun.stateOf, setDataQ_isStale, hloop]
        | err b e => simp [hc, FetchRun.stateOf, clearCacheCore, markStaleCore]
        | idle => simp [hc, FetchRun.stateOf, hloop]
        | loading => simp [hc, FetchRun.stateOf, hloop]

theorem applyQOp_isStale {α ε : Type} (opts : QueryOptions α ε) (s : QueryState α ε)
    (op : QOp α ε) (hs : s.stale.isStale = true) :
    (applyQOp opts s op).stale.isStale = true := by
  cases op with
  | markStale => simp [applyQOp, markStaleCore]
  | clearCache => simp [applyQOp, clearCacheCore, markStaleCore]
  | setData d now => simp [applyQOp, setDataQ_isStale, hs]
  | resetStaleTimer r now => simp [applyQOp, resetStaleTimerQ_isStale, hs]
  | staleTimerFire => simp [applyQOp, markStaleCore]
  | cacheTimerFire => simp [applyQOp, clearCacheCore, markStaleCore]
  | depChange r i =>
    cases r <;>
      simp [applyQOp, applyDepChange, applyOnChange, performDepAction,
        markStaleCore, clearCacheCore, hs]
  | runFetcher outs now => exact fetcher_isStale opts now outs s hs

theorem runQOps_isStale {α ε : Type} (opts : QueryOptions α ε) (ops : List (QOp α ε)) :
    (runQOps opts ops).stale.isStale = true := by
  have key : ∀ (l : List (QOp α ε)) (s : QueryState α ε), s.stale.isStale = true →
      (l.foldl (applyQOp opts) s).stale.isStale = true := by
    intro l
    induction l with
    | nil => intro s hs; exact hs
    | cons op rest ih => intro s hs; exact ih _ (applyQOp_isStale opts s op hs)
  exact key ops initQueryState rfl

theorem currentWithCaching_of_stale {α ε : Type} (c : QueryResult α ε) (st : StaleState)
    (ca : CacheState α) (hst : st.isStale = true) :
    currentWithCaching c st ca = currentWithCachingStale c ca := by
  cases c <;> cases hca : ca.hasCached <;> cases hd : ca.data <;>
    simp [currentWithCaching, currentWithCachingStale, hst, hca, hd]

/-- Claim C9: no operation of the Query state machine ever sets
`stale.isStale` back to false: it starts true at creation and every
reachable state (any sequence of public methods, timer firings, dependency
notifications and fetcher runs) keeps it true — in particular `setData` and
`resetStaleTimer` leave `isStale` untouched — so on every reachable state
the exposed-result derivation coincides with its stale-side branches and the
"not stale" branches are unreachable. -/
theorem claim_C9 {α ε : Type} (opts : QueryOptions α ε) (ops : List (QOp α ε))
    (c r : QueryResult α ε) (s : QueryState α ε) (d : α) (now : Nat) :
    (runQOps opts ops).stale.isStale = true ∧
    currentWithCaching c (runQOps opts ops).stale (runQOps opts ops).cache
      = currentWithCachingStale c (runQOps opts ops).cache ∧
    (setDataQ opts now d s).stale.isStale = s.stale.isStale ∧
    (resetStaleTimerQ opts now r s).stale.isStale = s.stale.isStale :=
  ⟨runQOps_isStale opts ops,
   currentWithCaching_of_stale c _ _ (runQOps_isStale opts ops),
   setDataQ_isStale opts now d s,
   resetStaleTimerQ_isStale opts now r s⟩

theorem getUpd_cons {α ε : Type} (f : QueryState α ε → QueryState α ε) (t : QMNode α ε)
    (k : String) (ks : List String) :
    getUpd f t (k :: ks)
      = (withEntries t (setChildEntries (entriesOf t) k
          (getUpd f ((childOf (entriesOf t) k).getD (.mapping [])) ks).1),
         (getUpd f ((childOf (entriesOf t) k).getD (.mapping [])) ks).2) := rfl

theorem itemsOfList_append {α ε : Type} (es1 es2 : List (String × QMNode α ε)) :
    itemsOfList (es1 ++ es2) = itemsOfList es1 ++ itemsOfList es2 := by
  induction es1 with
  | nil => simp [itemsOfList]
  | cons p rest ih => cases p; simp [itemsOfList, ih]

theorem setChildEntries_absent {α ε : Type} (es : List (String × QMNode α ε)) (k : String)
    (n : QMNode α ε) (h : childOf es k = none) :
    setChildEntries es k n = es ++ [(k, n)] := by
  induction es with
  | nil => rfl
  | cons p rest ih =>
    obtain ⟨k', n'⟩ := p
    by_cases hk : k' = k
    · simp [childOf, hk] at h
    · simp only [childOf, hk, if_false, ite_false] at h
      simp [setChildEntries, hk, ih h]

theorem itemsOfList_setChild_present {α ε : Type} (es : List (String × QMNode α ε))
    (k : String) (c c' : QMNode α ε) (h : childOf es k = some c)
    (heq : itemsOf c' = itemsOf c) :
    itemsOfList (setChildEntries es k c') = itemsOfList es := by
  induction es with
  | nil => simp [childOf] at h
  | cons p rest ih =>
    obtain ⟨k', n'⟩ := p
    by_cases hk : k' = k
    · simp only [childOf, hk, if_true, ite_true, Option.some.injEq] at h
      subst h
      simp [setChildEntries, hk, itemsOfList, heq]
    · simp only [childOf, hk, if_false, ite_false] at h
      simp [setChildEntries, hk, itemsOfList, ih h]

theorem itemsOf_withEntries {α ε : Type} (t : QMNode α ε)
    (es : List (String × QMNode α ε)) :
    itemsOf (withEntries t es) = headItems t ++ itemsOfList es := by
  cases t <;> simp [withEntries, itemsOf, headItems]

theorem itemsOf_eq_head_entries {α ε : Type} (t : QMNode α ε) :
    itemsOf t = headItems t ++ itemsOfList (entriesOf t) := by
  cases t <;> simp [itemsOf, headItems, entriesOf]

theorem getUpd_none_items {α ε : Type} (f : QueryState α ε → QueryState α ε) :
    ∀ (key : List String) (t : QMNode α ε),
      (getUpd f t key).2 = none → itemsOf (getUpd f t key).1 = itemsOf t := by
  intro key
  induction key with
  | nil =>
    intro t h
    cases t with
    | item q es => simp [getUpd] at h
    | mapping es => simp [getUpd]
  | cons k ks ih =>
    intro t h
    rw [getUpd_cons] at h ⊢
    simp only at h ⊢
    have hitems := ih ((childOf (entriesOf t) k).getD (.mapping [])) h
    rw [itemsOf_withEntries, itemsOf_eq_head_entries t]
    congr 1
    cases hc : childOf (entriesOf t) k with
    | some c =>
      rw [hc] at hitems
      exact itemsOfList_setChild_present _ _ _ _ hc hitems
    | none =>
      rw [hc] at hitems
      rw [setChildEntries_absent _ _ _ hc, itemsOfList_append]
      simp only [Option.getD] at hitems
      simp [itemsOfList, hitems, itemsOf]

/-- Claim C10: `getQuery` on a key whose path is not fully present is not
side-effect-free: every lookup-based operation rebuilds the traversed tree
inserting an empty mapping for each missing segment while leaving every
stored Query state unchanged, and reports "not found"; on the empty registry
the key `["a","b"]` leaves `{a: {b: {}}}` behind with the result still
`undefined`; and the key-addressed public operations (`markStale`,
`invalidate`, `refetch`, `updateData`) never deliver a store update
notification, so the mutation is silent. -/
theorem claim_C10 :
    (∀ (f : QueryState Nat Nat → QueryState Nat Nat) (t : QMNode Nat Nat)
        (key : List String),
      (getUpd f t key).2 = none → itemsOf (getUpd f t key).1 = itemsOf t) ∧
    getQueryT (QMNode.mapping ([] : List (String × QMNode Nat Nat))) ["a", "b"]
      = (.mapping [("a", .mapping [("b", .mapping [])])], none) ∧
    (∀ (s : QueryStore Nat Nat) (key : List String) (opts : QueryOptions Nat Nat)
        (now d : Nat),
      (markStaleStore s key).notifications = s.notifications ∧
      (invalidateStore s key).notifications = s.notifications ∧
      (refetchStore s key).notifications = s.notifications ∧
      (updateDataStore opts now d s key).notifications = s.notifications) :=
  ⟨fun f t key h => getUpd_none_items f key t h,
   rfl,
   fun _ _ _ _ _ => ⟨rfl, rfl, rfl, rfl⟩⟩

/-- Witness for claim C10's quantified part: the identity lookup on the
empty registry with key `["a","b"]` finds nothing and preserves the (empty)
collection of stored Query states. -/
theorem claim_C10_witness :
    itemsOf (getUpd (fun q => q) (QMNode.mapping ([] : List (String × QMNode Nat Nat)))
        ["a", "b"]).1
      = itemsOf (QMNode.mapping ([] : List (String × QMNode Nat Nat))) :=
  claim_C10.1 (fun q => q) (QMNode.mapping []) ["a", "b"] rfl

end QueryLib
